import Mathlib

/-!
Shallow embedding of the laundry-tracker machine reservation logic
(src/app.py) and proofs about its operations.

Times are modelled as integers (seconds since an epoch); a Python
`timedelta(minutes=m)` is `60 * m` seconds, and Python's
`int((a - b).total_seconds() / 60)` is truncated division toward zero,
i.e. `Int.tdiv (a - b) 60`.
-/

namespace Laundry

/-- The `current_user` document field (the occupant Session), as built by the
Start forms in app.py: keys name, designation, comment, pin, start_time,
end_time, timeout_alert_sent. -/
structure Session where
  name : String
  designation : String
  comment : String
  pin : String
  start_time : Int
  end_time : Int
  timeout_alert_sent : Bool
deriving DecidableEq, Repr

/-- A queue entry, as built by the Join Queue form in app.py:
keys name, designation, comment, pin, urgent, urgent_reason. -/
structure Waiter where
  name : String
  designation : String
  comment : String
  pin : String
  urgent : Bool
  urgent_reason : String
deriving DecidableEq, Repr

/-- A per-machine Firestore document: `current_user`, `queue`,
`last_free_time` (each possibly absent; a missing queue reads as `[]`). -/
structure MachineDoc where
  current_user : Option Session
  queue : List Waiter
  last_free_time : Option Int
deriving DecidableEq, Repr

/-- `BUFFER_MINUTES = 15` in app.py. -/
def BUFFER_MINUTES : Int := 15

/-- Notification events emitted via `send_telegram` /
`trigger_browser_notification`, abstracted to their data content.
Fields of type `Option String` stand for pieces of the message that the code
includes only conditionally, or reads from the queue by index (where an
out-of-range index has no value: in Python the access raises). -/
inductive Event where
  | timeUp (finisher : String) (next : Option String)
  | finishedEarly (finisher : String) (next : Option String)
  | skipAlert (timedOut : Option String) (next : Option String)
  | started (name : String) (durationMins : Int)
deriving DecidableEq, Repr

/-- An observable effect of a handler, in program order: a write to the
store (the resulting document) or a notification. -/
inductive Effect where
  | storeWrite (d : MachineDoc)
  | notify (e : Event)
deriving DecidableEq, Repr

/-- Rejection outcomes of the handlers (surfaced via `st.error`). -/
inductive AppError where
  | wrongCredential
  | notYourTurn
  | emptyQueue
  | noOccupant
deriving DecidableEq, Repr

/-- Result of the per-machine read pass (app.py lines 132-159): the derived
`is_running` flag, the document after any lazy-expiry write-back, and the
notifications emitted by this read. -/
structure ReadResult where
  is_running : Bool
  doc : MachineDoc
  events : List Event
deriving DecidableEq, Repr

/-- The read pass of app.py (lines 132-159).  CASE 1: occupant present and
`now < end_time` means running.  CASE 2 (auto-expiry): occupant present,
time ran out; if `timeout_alert_sent` is not yet set, send the TIME IS UP
alert (naming the queue head as next when the queue is non-empty), mark the
flag and write `current_user` back via `doc_ref.update`. -/
def readMachine (d : MachineDoc) (now : Int) : ReadResult :=
  match d.current_user with
  | none => ⟨false, d, []⟩
  | some cu =>
    if now < cu.end_time then
      ⟨true, d, []⟩
    else
      if cu.timeout_alert_sent = false then
        let cu' : Session := { cu with timeout_alert_sent := true }
        ⟨false, { d with current_user := some cu' },
          [Event.timeUp cu.name ((d.queue[0]?).map Waiter.name)]⟩
      else
        ⟨false, d, []⟩

/-- `effective_free_time` derivation (app.py lines 226-230):
`last_free_time` if present, else the (expired) occupant's `end_time`. -/
def effectiveFreeTime (d : MachineDoc) : Option Int :=
  match d.last_free_time with
  | some t => some t
  | none => d.current_user.map Session.end_time

/-- `mins_left` (app.py line 235): Python
`int((buffer_deadline - now).total_seconds() / 60)`, truncating toward
zero. -/
def minsLeft (eft now : Int) : Int :=
  Int.tdiv (eft + 60 * BUFFER_MINUTES - now) 60

/-- Derived state of the Available branch (app.py lines 223-241). -/
inductive AvailState where
  | plain
  | claimOpen (mins : Int)
  | claimExpired
deriving DecidableEq, Repr

/-- Claim-window derivation in the Available branch (app.py lines 226-241):
with a non-empty queue and a set `effective_free_time`, show the claim
countdown while `mins_left > 0`, otherwise the head has timed out. -/
def availState (d : MachineDoc) (now : Int) : AvailState :=
  match effectiveFreeTime d with
  | none => AvailState.plain
  | some eft =>
    if d.queue.isEmpty then AvailState.plain
    else if 0 < minsLeft eft now then AvailState.claimOpen (minsLeft eft now)
    else AvailState.claimExpired

/-- `timeout_happened` (app.py lines 232-241): queue non-empty,
`effective_free_time` set, and `mins_left <= 0`. -/
def timeoutHappened (d : MachineDoc) (now : Int) : Bool :=
  match effectiveFreeTime d with
  | none => false
  | some eft => !d.queue.isEmpty && !(decide (0 < minsLeft eft now))

/-- The Skip handler (app.py lines 286-290), as its ordered effects:
`queue.pop(0)`; `doc_ref.update({queue, last_free_time: now})`; then the
Queue Alert telegram, whose text is built from the ALREADY-POPPED queue:
it reads `queue[0]` (labelled as having timed out) and `queue[1]`
(labelled as next). -/
def skip (d : MachineDoc) (now : Int) : List Effect :=
  let q' := d.queue.drop 1
  [Effect.storeWrite { d with queue := q', last_free_time := some now },
   Effect.notify (Event.skipAlert ((q'[0]?).map Waiter.name)
      ((q'[1]?).map Waiter.name))]

/-- Python's `str.strip()`: remove leading and trailing whitespace. -/
def pyStrip (s : String) : String :=
  String.mk
    (((s.data.dropWhile Char.isWhitespace).reverse.dropWhile
      Char.isWhitespace).reverse)

/-- Python's `str.lower()` (on the ASCII names this app handles). -/
def pyLower (s : String) : String :=
  String.mk (s.data.map Char.toLower)

/-- `name.strip().lower()` as used by the turn check (app.py line 300). -/
def pyNorm (s : String) : String :=
  pyLower (pyStrip s)

/-- The `user_data` dict built by both Start forms (app.py lines 304-305 and
318-319).  `t1` is the `get_current_time()` read used for
`end_val = get_current_time() + timedelta(minutes=duration)`; `t2` is the
separate, later `get_current_time()` read stored as `start_time`. -/
def mkSession (name desig comment pin : String) (duration t1 t2 : Int) :
    Session :=
  { name := name, designation := desig, comment := comment, pin := pin,
    start_time := t2, end_time := t1 + 60 * duration,
    timeout_alert_sent := false }

/-- Start-from-queue form (app.py lines 299-308): reject unless the
submitted name equals the head's name after strip+lower; on match pop the
head and `doc_ref.set({current_user, queue})` (a full-document write), then
send the started telegram. -/
def startFromQueue (d : MachineDoc) (name desig comment pin : String)
    (duration t1 t2 : Int) : Except AppError (MachineDoc × List Event) :=
  match d.queue with
  | [] => Except.error AppError.emptyQueue
  | w :: rest =>
    if pyNorm name ≠ pyNorm w.name then
      Except.error AppError.notYourTurn
    else
      Except.ok
        ({ current_user := some (mkSession name desig comment pin duration t1 t2),
           queue := rest, last_free_time := none },
         [Event.started name duration])

/-- Free-machine Start form (app.py lines 317-322): no validation of any
field; `doc_ref.set({current_user, queue})` (a full-document write,
queue unchanged), then the started telegram. -/
def startFree (d : MachineDoc) (name desig comment pin : String)
    (duration t1 t2 : Int) : MachineDoc × List Event :=
  ({ current_user := some (mkSession name desig comment pin duration t1 t2),
     queue := d.queue, last_free_time := none },
   [Event.started name duration])

/-- Finish Early handler (app.py lines 210-222): PIN must equal the
occupant's pin or the master pin; on success delete `current_user`, set
`last_free_time = now`, and send the finished-early telegram (naming the
queue head only when the queue is non-empty). -/
def finish (master : String) (d : MachineDoc) (now : Int) (pin : String) :
    Except AppError (MachineDoc × List Event) :=
  match d.current_user with
  | none => Except.error AppError.noOccupant
  | some cu =>
    if pin = cu.pin ∨ pin = master then
      Except.ok
        ({ d with current_user := none, last_free_time := some now },
         [Event.finishedEarly cu.name ((d.queue[0]?).map Waiter.name)])
    else
      Except.error AppError.wrongCredential

/-- The in-place exchange `queue[idx], queue[idx+1] = queue[idx+1], queue[idx]`
(app.py line 264), total: out-of-range indices leave the list unchanged. -/
def listSwap (q : List Waiter) (i : Nat) : List Waiter :=
  match q[i]?, q[i + 1]? with
  | some a, some b => (q.set i b).set (i + 1) a
  | _, _ => q

/-- Swap Down handler (app.py lines 261-266): offered only when
`idx < len(queue) - 1`; requires the PIN of the waiter at index `idx` (or
the master pin); on success exchanges indices `idx` and `idx+1` and writes
the queue back. -/
def swapDown (master : String) (q : List Waiter) (i : Nat) (pin : String) :
    Except AppError (List Waiter) :=
  if i + 1 < q.length then
    match q[i]? with
    | some w =>
      if pin = w.pin ∨ pin = master then Except.ok (listSwap q i)
      else Except.error AppError.wrongCredential
    | none => Except.error AppError.emptyQueue
  else
    Except.error AppError.emptyQueue

/-- A PIN matching the spec's pattern of exactly four digits. -/
def isFourDigitPin (pin : String) : Bool :=
  pin.length = 4 && pin.toList.all Char.isDigit

/-! Concrete fixtures used by witnesses and counterexamples. -/

/-- A waiter named Bob with PIN 1111. -/
def bob : Waiter :=
  { name := "Bob", designation := "PhD", comment := "", pin := "1111",
    urgent := false, urgent_reason := "" }

/-- A waiter named Carol with PIN 2222. -/
def carol : Waiter :=
  { name := "Carol", designation := "PhD", comment := "", pin := "2222",
    urgent := false, urgent_reason := "" }

/-- An occupant session that ended at time 900 with the alert not yet sent. -/
def expiredSess : Session :=
  { name := "Alice", designation := "PhD", comment := "", pin := "1234",
    start_time := 0, end_time := 900, timeout_alert_sent := false }

/-- A document in the ClaimExpired situation used for the Skip claims:
no occupant, queue = [Bob, Carol], machine free since time 0. -/
def skipDoc : MachineDoc :=
  { current_user := none, queue := [bob, carol], last_free_time := some 0 }

/-! Helper lemmas. -/

/-- Truncating division of a number of seconds by 60 is positive exactly
when at least one full minute is left. -/
theorem tdiv_sixty_pos_iff (n : Int) : 0 < Int.tdiv n 60 ↔ 60 ≤ n := by
  rcases le_or_lt 0 n with h0 | h0
  · rw [Int.tdiv_eq_ediv h0 (by norm_num)]
    constructor
    · intro h
      have h1 : (1 : Int) ≤ n / 60 := h
      have := (Int.le_ediv_iff_mul_le (by norm_num : (0 : Int) < 60)).1 h1
      omega
    · intro h
      have : (1 : Int) ≤ n / 60 :=
        (Int.le_ediv_iff_mul_le (by norm_num : (0 : Int) < 60)).2 (by omega)
      omega
  · constructor
    · intro h
      have heq : Int.tdiv n 60 = -Int.tdiv (-n) 60 := by
        have h2 := Int.neg_tdiv (-n) 60
        rw [neg_neg] at h2
        rw [h2]
      have hnn : 0 ≤ Int.tdiv (-n) 60 := Int.tdiv_nonneg (by omega) (by norm_num)
      omega
    · intro h
      omega

/-- Unfolding `listSwap` when both indices are in range. -/
theorem listSwap_eq (q : List Waiter) (i : Nat) (a b : Waiter)
    (ha : q[i]? = some a) (hb : q[i + 1]? = some b) :
    listSwap q i = (q.set i b).set (i + 1) a := by
  simp [listSwap, ha, hb]

/-- Exchanging adjacent entries twice restores the list. -/
theorem listSwap_involutive (q : List Waiter) (i : Nat) (h : i + 1 < q.length) :
    listSwap (listSwap q i) i = q := by
  have hi : i < q.length := Nat.lt_of_succ_lt h
  obtain ⟨a, ha⟩ : ∃ a, q[i]? = some a := ⟨q[i], List.getElem?_eq_getElem hi⟩
  obtain ⟨b, hb⟩ : ∃ b, q[i + 1]? = some b := ⟨q[i + 1], List.getElem?_eq_getElem h⟩
  have h1 : listSwap q i = (q.set i b).set (i + 1) a := listSwap_eq q i a b ha hb
  have hga : (listSwap q i)[i]? = some b := by
    rw [h1, List.getElem?_set_ne (by omega : i + 1 ≠ i),
      List.getElem?_set_eq_of_lt b hi]
  have hgb : (listSwap q i)[i + 1]? = some a := by
    rw [h1, List.getElem?_set_eq_of_lt a (by simpa using h)]
  have h2 : listSwap (listSwap q i) i = ((listSwap q i).set i a).set (i + 1) b :=
    listSwap_eq (listSwap q i) i b a hga hgb
  rw [h2]
  apply List.ext_getElem?
  intro n
  by_cases hni : n = i
  · subst hni
    rw [List.getElem?_set_ne (by omega : n + 1 ≠ n),
      List.getElem?_set_eq_of_lt a (by simp [h1]; omega), ha]
  · by_cases hns : n = i + 1
    · subst hns
      rw [List.getElem?_set_eq_of_lt b (by simp [h1]; omega), hb]
    · rw [List.getElem?_set_ne (fun hh => hns hh.symm),
        List.getElem?_set_ne (fun hh => hni hh.symm), h1,
        List.getElem?_set_ne (fun hh => hns hh.symm),
        List.getElem?_set_ne (fun hh => hni hh.symm)]

/-! Claim theorems. -/

/-- Claim C1 (amended): on the read that first detects an expired occupant
(end_time passed, timeout_alert_sent still false), the engine emits exactly
one end-of-cycle notification naming the finishing holder and, when the
queue is non-empty, its head; it marks timeout_alert_sent true and writes
the occupant back — leaving the occupant field present and last_free_time
untouched (it does not clear the occupant and does not set last_free_time
to the occupant's end_time); any subsequent read of the resulting document,
at any time, emits no further expiry notification. -/
theorem readMachine_first_expiry (d : MachineDoc) (cu : Session)
    (now now' : Int) (hcu : d.current_user = some cu)
    (hexp : cu.end_time ≤ now) (hflag : cu.timeout_alert_sent = false) :
    readMachine d now =
      ⟨false,
        { d with current_user := some { cu with timeout_alert_sent := true } },
        [Event.timeUp cu.name ((d.queue[0]?).map Waiter.name)]⟩ ∧
    (readMachine (readMachine d now).doc now').events = [] := by
  have hnl : ¬ now < cu.end_time := not_lt.2 hexp
  have h1 : readMachine d now =
      ⟨false,
        { d with current_user := some { cu with timeout_alert_sent := true } },
        [Event.timeUp cu.name ((d.queue[0]?).map Waiter.name)]⟩ := by
    simp [readMachine, hcu, hnl, hflag]
  refine ⟨h1, ?_⟩
  rw [h1]
  by_cases h2 : now' < cu.end_time <;> simp [readMachine, h2]

/-- Witness for claim C1 at a concrete expired occupant and two reads. -/
theorem readMachine_first_expiry_witness :
    ((⟨some expiredSess, [bob], none⟩ : MachineDoc).current_user =
      some expiredSess) ∧
    expiredSess.end_time ≤ 1000 ∧
    expiredSess.timeout_alert_sent = false ∧
    (readMachine ⟨some expiredSess, [bob], none⟩ 1000 =
      ⟨false,
        { current_user := some { expiredSess with timeout_alert_sent := true },
          queue := [bob], last_free_time := none },
        [Event.timeUp expiredSess.name ((([bob] : List Waiter)[0]?).map
          Waiter.name)]⟩ ∧
     (readMachine
        (readMachine ⟨some expiredSess, [bob], none⟩ 1000).doc 2000).events =
       []) :=
  ⟨rfl, by decide, rfl,
   readMachine_first_expiry ⟨some expiredSess, [bob], none⟩ expiredSess
     1000 2000 rfl (by decide) rfl⟩

/-- Claim C1 (counterexample): the read that first detects the expiry does
not clear the occupant field and does not set last_free_time to the
occupant's end_time (900 here). -/
theorem readMachine_no_cleanup_ctex :
    ¬ ((readMachine ⟨some expiredSess, [bob], none⟩ 1000).doc.current_user =
        none ∧
       (readMachine ⟨some expiredSess, [bob], none⟩ 1000).doc.last_free_time =
        some 900) := by
  decide

/-- Claim C2 (code bug): with queue [Bob, Carol] in ClaimExpired at time 960
(16 minutes past effective_free_time 0), Skip's guard holds and Skip pops the
head and issues the store update, but the Queue Alert is built from the
already-popped queue: it names Carol — the promoted waiter — as the one who
timed out, and its "next" field reads index 1 of the one-element remaining
queue, which is past the end and has no value (in Python this access raises
IndexError after the store update has already been issued, so Bob and Carol
are never named as skipped and promoted). -/
theorem skip_alert_misnames_ctex :
    timeoutHappened skipDoc 960 = true ∧ 1 < skipDoc.queue.length ∧
    skip skipDoc 960 =
      [Effect.storeWrite
        { current_user := none, queue := [carol], last_free_time := some 960 },
       Effect.notify (Event.skipAlert (some "Carol") none)] := by
  decide

/-- Claim C3: when Skip runs on a queue of length exactly 2, the store write
carrying the popped queue and the new last_free_time is issued first, and
the notification is built afterwards from the already-popped queue, reading
its index 0 (the remaining head) and its index 1, which is past the end of
the one-element list and yields no value. -/
theorem skip_len2_overruns (d : MachineDoc) (now : Int)
    (h : d.queue.length = 2) :
    skip d now =
      [Effect.storeWrite
        { d with queue := d.queue.drop 1, last_free_time := some now },
       Effect.notify
        (Event.skipAlert ((d.queue[1]?).map Waiter.name) none)] := by
  have h0 : (d.queue.drop 1)[0]? = d.queue[1]? := by
    rw [List.getElem?_drop]
  have h1 : (d.queue.drop 1)[1]? = none := by
    apply List.getElem?_eq_none
    rw [List.length_drop, h]
  simp [skip, h0, h1]
  omega

/-- Witness for claim C3 at the concrete two-waiter ClaimExpired document. -/
theorem skip_len2_overruns_witness :
    skipDoc.queue.length = 2 ∧
    skip skipDoc 960 =
      [Effect.storeWrite { skipDoc with queue := skipDoc.queue.drop 1, last_free_time := some 960 },
       Effect.notify
        (Event.skipAlert ((skipDoc.queue[1]?).map Waiter.name) none)] :=
  ⟨rfl, skip_len2_overruns skipDoc 960 rfl⟩

/-- Claim C4: with the machine not busy and a non-empty queue, a Start
submission whose trimmed, case-folded name differs from the head's is
rejected (NotYourTurn) with no write; a matching submission pops the head,
builds the Session from the submitted fields, and issues the single
full-document write holding the new occupant together with the remaining
queue. -/
theorem startFromQueue_turn_gate (d : MachineDoc) (w : Waiter)
    (rest : List Waiter) (name desig comment pin : String)
    (duration t1 t2 : Int) (hq : d.queue = w :: rest) :
    (pyNorm name ≠ pyNorm w.name →
      startFromQueue d name desig comment pin duration t1 t2 =
        Except.error AppError.notYourTurn) ∧
    (pyNorm name = pyNorm w.name →
      startFromQueue d name desig comment pin duration t1 t2 =
        Except.ok
          ({ current_user := some (mkSession name desig comment pin duration t1 t2),
             queue := rest, last_free_time := none },
           [Event.started name duration])) := by
  constructor
  · intro hne
    simp [startFromQueue, hq, hne]
  · intro he
    simp [startFromQueue, hq, he]

/-- Witness for claim C4: "Dave" is rejected while "bob" (case-insensitive)
is accepted against head Bob. -/
theorem startFromQueue_turn_gate_witness :
    ((⟨none, [bob], none⟩ : MachineDoc).queue = bob :: []) ∧
    (pyNorm "Dave" ≠ pyNorm bob.name ∧
      startFromQueue ⟨none, [bob], none⟩ "Dave" "PhD" "" "4321" 45 0 0 =
        Except.error AppError.notYourTurn) ∧
    (pyNorm "bob" = pyNorm bob.name ∧
      startFromQueue ⟨none, [bob], none⟩ "bob" "PhD" "" "4321" 45 0 0 =
        Except.ok
          ({ current_user := some (mkSession "bob" "PhD" "" "4321" 45 0 0),
             queue := [], last_free_time := none },
           [Event.started "bob" 45])) :=
  ⟨rfl,
   ⟨by decide,
    (startFromQueue_turn_gate ⟨none, [bob], none⟩ bob [] "Dave" "PhD" ""
      "4321" 45 0 0 rfl).1 (by decide)⟩,
   ⟨by decide,
    (startFromQueue_turn_gate ⟨none, [bob], none⟩ bob [] "bob" "PhD" ""
      "4321" 45 0 0 rfl).2 (by decide)⟩⟩

/-- Claim C5: on a busy machine, Finish with a PIN equal to neither the
occupant's stored pin nor the master secret is rejected (WrongCredential)
with no write; Finish with the occupant's pin or the master secret deletes
the occupant, sets last_free_time to now, and emits a finished-early
notification carrying the queue head's name exactly when the queue is
non-empty. -/
theorem finish_pin_gate (master : String) (d : MachineDoc) (cu : Session)
    (now : Int) (pin : String) (hcu : d.current_user = some cu)
    (_hbusy : now < cu.end_time) :
    (pin ≠ cu.pin → pin ≠ master →
      finish master d now pin = Except.error AppError.wrongCredential) ∧
    (pin = cu.pin ∨ pin = master →
      finish master d now pin =
        Except.ok ({ d with current_user := none, last_free_time := some now },
          [Event.finishedEarly cu.name ((d.queue[0]?).map Waiter.name)])) := by
  constructor
  · intro h1 h2
    simp [finish, hcu, h1, h2]
  · intro h
    rcases h with h | h <;> simp [finish, hcu, h]

/-- Witness for claim C5 with master "0000" and occupant pin "1234": "9999"
is rejected, "0000" succeeds. -/
theorem finish_pin_gate_witness :
    ((⟨some expiredSess, [bob], none⟩ : MachineDoc).current_user =
      some expiredSess) ∧
    (100 : Int) < expiredSess.end_time ∧
    ("9999" ≠ expiredSess.pin ∧ ("9999" : String) ≠ "0000" ∧
      finish "0000" ⟨some expiredSess, [bob], none⟩ 100 "9999" =
        Except.error AppError.wrongCredential) ∧
    (("0000" = expiredSess.pin ∨ ("0000" : String) = "0000") ∧
      finish "0000" ⟨some expiredSess, [bob], none⟩ 100 "0000" =
        Except.ok
          ({ current_user := none, queue := [bob], last_free_time := some 100 },
           [Event.finishedEarly expiredSess.name
             ((([bob] : List Waiter)[0]?).map Waiter.name)])) :=
  ⟨rfl, by decide,
   ⟨by decide, by decide,
    (finish_pin_gate "0000" ⟨some expiredSess, [bob], none⟩ expiredSess 100
      "9999" rfl (by decide)).1 (by decide) (by decide)⟩,
   ⟨Or.inr rfl,
    (finish_pin_gate "0000" ⟨some expiredSess, [bob], none⟩ expiredSess 100
      "0000" rfl (by decide)).2 (Or.inr rfl)⟩⟩

/-- Claim C6 (counterexample): a free-machine Start submission with empty
name and empty PIN is not rejected — it writes a new occupant built from
those fields, mutating the record. -/
theorem startFree_no_validation_ctex :
    (startFree ⟨none, [], some 100⟩ "" "PhD" "" "" 45 0 0).1 ≠
      (⟨none, [], some 100⟩ : MachineDoc) ∧
    (startFree ⟨none, [], some 100⟩ "" "PhD" "" "" 45 0 0).1.current_user ≠
      none := by
  decide

/-- Claim C6 (amended): the free-machine Start form performs no input
validation: even a submission with a missing name or PIN, a PIN that does
not match four digits, or a duration outside [15,120] is accepted and
installs the Session built from the submitted fields as the occupant in a
full-document write (durations outside [15,120] cannot in fact be submitted
through the UI, whose slider is bounded to that range). -/
theorem startFree_accepts_invalid (d : MachineDoc)
    (name desig comment pin : String) (duration t1 t2 : Int)
    (_hbad : name = "" ∨ pin = "" ∨ isFourDigitPin pin = false ∨
      duration < 15 ∨ 120 < duration) :
    startFree d name desig comment pin duration t1 t2 =
      ({ current_user := some (mkSession name desig comment pin duration t1 t2),
         queue := d.queue, last_free_time := none },
       [Event.started name duration]) := rfl

/-- Witness for claim C6 at empty name and empty PIN. -/
theorem startFree_accepts_invalid_witness :
    (("" : String) = "" ∨ ("" : String) = "" ∨ isFourDigitPin "" = false ∨
      (45 : Int) < 15 ∨ (120 : Int) < 45) ∧
    startFree ⟨none, [], some 100⟩ "" "PhD" "" "" 45 0 0 =
      ({ current_user := some (mkSession "" "PhD" "" "" 45 0 0),
         queue := [], last_free_time := none },
       [Event.started "" 45]) :=
  ⟨Or.inl rfl,
   startFree_accepts_invalid ⟨none, [], some 100⟩ "" "PhD" "" "" 45 0 0
     (Or.inl rfl)⟩

/-- Claim C7 (counterexample): at now = 870, still strictly inside the
15-minute claim window anchored at effective_free_time 0 (deadline 900),
the derived state is already ClaimExpired, because the code truncates the
remaining 30 seconds to 0 whole minutes. -/
theorem claim_window_final_minute_ctex :
    (870 : Int) < 0 + 60 * BUFFER_MINUTES ∧
    availState ⟨none, [bob], some 0⟩ 870 = AvailState.claimExpired := by
  decide

/-- Claim C7 (amended): with a non-empty queue and effective_free_time set,
the derived state is ClaimWindowOpen — reporting the truncated number of
whole minutes left — exactly while at least one full minute (60 seconds)
remains before effective_free_time + 15 minutes, and ClaimExpired as soon
as fewer than 60 seconds remain, which includes the final partial minute
still strictly inside the window; in particular the state is ClaimExpired
at every instant past the window. -/
theorem availState_window (d : MachineDoc) (eft now : Int)
    (heft : effectiveFreeTime d = some eft) (hq : d.queue ≠ []) :
    (now ≤ eft + 60 * BUFFER_MINUTES - 60 →
      availState d now = AvailState.claimOpen (minsLeft eft now) ∧
        0 < minsLeft eft now) ∧
    (eft + 60 * BUFFER_MINUTES - 60 < now →
      availState d now = AvailState.claimExpired) := by
  have hqe : d.queue.isEmpty = false := by
    cases hh : d.queue with
    | nil => exact absurd hh hq
    | cons a l => rfl
  constructor
  · intro h
    have hpos : 0 < minsLeft eft now := by
      apply (tdiv_sixty_pos_iff (eft + 60 * BUFFER_MINUTES - now)).2
      simp only [BUFFER_MINUTES] at h ⊢
      omega
    refine ⟨?_, hpos⟩
    simp [availState, heft, hqe, hpos]
  · intro h
    have hnpos : ¬ 0 < minsLeft eft now := by
      intro hc
      have := (tdiv_sixty_pos_iff (eft + 60 * BUFFER_MINUTES - now)).1 hc
      simp only [BUFFER_MINUTES] at this h
      omega
    simp [availState, heft, hqe, hnpos]

/-- Witness for claim C7: ten minutes after freeing, the head has an open
claim window; sixteen minutes after, the claim has expired. -/
theorem availState_window_witness :
    effectiveFreeTime ⟨none, [bob], some 0⟩ = some 0 ∧
    ((⟨none, [bob], none⟩ : MachineDoc).queue ≠ []) ∧
    ((600 : Int) ≤ 0 + 60 * BUFFER_MINUTES - 60) ∧
    availState ⟨none, [bob], some 0⟩ 600 =
      AvailState.claimOpen (minsLeft 0 600) ∧
    (0 + 60 * BUFFER_MINUTES - 60 < (960 : Int)) ∧
    availState ⟨none, [bob], some 0⟩ 960 = AvailState.claimExpired :=
  ⟨rfl, by decide, by decide,
   ((availState_window ⟨none, [bob], some 0⟩ 0 600 rfl (by decide)).1
     (by decide)).1,
   by decide,
   (availState_window ⟨none, [bob], some 0⟩ 0 960 rfl (by decide)).2
     (by decide)⟩

/-- Claim C8 (counterexample): Start reads the clock twice — end_time is
computed from the first read plus the duration, start_time stores the
second, later read — so with clock reads 0 and then 1 and a fully valid
input (name "Alice", pin "1234", duration 45) the created Session has
end_time - start_time = 2699 seconds, one second short of 45 minutes. -/
theorem start_duration_drift_ctex :
    ((startFree ⟨none, [], none⟩ "Alice" "PhD" "" "1234" 45 0 1).1.current_user.map
      (fun s => s.end_time - s.start_time)) ≠ some (60 * 45) := by
  decide

/-- Claim C8 (amended): for every valid Start input, the Session the Start
forms install satisfies end_time - start_time = duration minutes minus the
clock advance between the two get_current_time() reads; when the two reads
return the same instant the difference is exactly duration minutes. -/
theorem mkSession_duration (d : MachineDoc) (name desig comment pin : String)
    (duration t1 t2 : Int) (_hname : name ≠ "")
    (_hpin : isFourDigitPin pin = true)
    (_hdur : 15 ≤ duration ∧ duration ≤ 120) :
    (startFree d name desig comment pin duration t1 t2).1.current_user =
      some (mkSession name desig comment pin duration t1 t2) ∧
    (mkSession name desig comment pin duration t1 t2).end_time -
      (mkSession name desig comment pin duration t1 t2).start_time =
      60 * duration - (t2 - t1) ∧
    (t2 = t1 →
      (mkSession name desig comment pin duration t1 t2).end_time -
        (mkSession name desig comment pin duration t1 t2).start_time =
        60 * duration) := by
  refine ⟨rfl, by simp [mkSession]; ring, ?_⟩
  intro h
  subst h
  simp [mkSession]

/-- Witness for claim C8 with coinciding clock reads. -/
theorem mkSession_duration_witness :
    (("Alice" : String) ≠ "") ∧ isFourDigitPin "1234" = true ∧
    ((15 : Int) ≤ 45 ∧ (45 : Int) ≤ 120) ∧
    (mkSession "Alice" "PhD" "" "1234" 45 0 0).end_time -
      (mkSession "Alice" "PhD" "" "1234" 45 0 0).start_time = 60 * 45 :=
  ⟨by decide, by decide, by decide,
   (mkSession_duration ⟨none, [], none⟩ "Alice" "PhD" "" "1234" 45 0 0
     (by decide) (by decide) (by decide)).2.2 rfl⟩

/-- Claim C9: both Start forms persist via a full-document set containing
only current_user and queue, so the written document carries no
last_free_time — a previously stored last_free_time is removed by Start
rather than left unchanged. -/
theorem start_removes_last_free_time (d : MachineDoc) (t : Int)
    (_hlft : d.last_free_time = some t)
    (name desig comment pin : String) (duration t1 t2 : Int)
    (d' : MachineDoc) (evs : List Event) :
    (startFree d name desig comment pin duration t1 t2).1.last_free_time =
      none ∧
    (startFromQueue d name desig comment pin duration t1 t2 =
        Except.ok (d', evs) →
      d'.last_free_time = none) := by
  refine ⟨rfl, ?_⟩
  intro h
  unfold startFromQueue at h
  split at h
  · exact absurd h (by simp)
  · split at h
    · exact absurd h (by simp)
    · simp only [Except.ok.injEq, Prod.mk.injEq] at h
      rw [← h.1]

/-- Witness for claim C9: starting over a document whose last_free_time is
500 yields documents with no last_free_time, via both Start forms. -/
theorem start_removes_lft_witness :
    ((⟨none, [bob], some 500⟩ : MachineDoc).last_free_time = some 500) ∧
    (startFree ⟨none, [bob], some 500⟩ "bob" "PhD" "" "4321" 45 0 0).1.last_free_time =
      none ∧
    (MachineDoc.mk (some (mkSession "bob" "PhD" "" "4321" 45 0 0)) []
      none).last_free_time = none :=
  ⟨rfl,
   (start_removes_last_free_time ⟨none, [bob], some 500⟩ 500 rfl "bob" "PhD"
     "" "4321" 45 0 0
     ⟨some (mkSession "bob" "PhD" "" "4321" 45 0 0), [], none⟩
     [Event.started "bob" 45]).1,
   (start_removes_last_free_time ⟨none, [bob], some 500⟩ 500 rfl "bob" "PhD"
     "" "4321" 45 0 0
     ⟨some (mkSession "bob" "PhD" "" "4321" 45 0 0), [], none⟩
     [Event.started "bob" 45]).2 rfl⟩

/-- Claim C10: Swap is its own inverse — whenever two successive Swap Down
operations at the same index both pass their PIN checks, the second restores
the queue the first started from. -/
theorem swapDown_involutive (master : String) (q q' q'' : List Waiter)
    (i : Nat) (pin1 pin2 : String)
    (h1 : swapDown master q i pin1 = Except.ok q')
    (h2 : swapDown master q' i pin2 = Except.ok q'') :
    q'' = q := by
  have hex : ∀ (qq : List Waiter) (p : String) (r : List Waiter),
      swapDown master qq i p = Except.ok r →
        r = listSwap qq i ∧ i + 1 < qq.length := by
    intro qq p r h
    unfold swapDown at h
    split at h
    · split at h
      · split at h
        · simp only [Except.ok.injEq] at h
          exact ⟨h.symm, by assumption⟩
        · simp at h
      · simp at h
    · simp at h
  obtain ⟨he1, hlen⟩ := hex q pin1 q' h1
  obtain ⟨he2, _⟩ := hex q' pin2 q'' h2
  rw [he2, he1]
  exact listSwap_involutive q i hlen

/-- Witness for claim C10: swapping Bob past Carol with Bob's PIN and then
swapping with Carol's PIN restores [Bob, Carol]. -/
theorem swapDown_involutive_witness :
    swapDown "0000" [bob, carol] 0 "1111" = Except.ok [carol, bob] ∧
    swapDown "0000" [carol, bob] 0 "2222" = Except.ok [bob, carol] ∧
    ([bob, carol] : List Waiter) = [bob, carol] :=
  ⟨rfl, rfl,
   swapDown_involutive "0000" [bob, carol] [carol, bob] [bob, carol] 0
     "1111" "2222" rfl rfl⟩

end Laundry
